import Mathlib

/-!
Shallow embedding of the Microsoft calendar provider adapter
(`packages/api/src/providers/microsoft-calendar.ts`) of the Analog
repository, together with models of the small helper modules it imports
(color palette, Microsoft mapper utilities, canonical interfaces) whose
sources are not part of the analysed tree: those are modelled from the
specification and each carries a doc comment saying so.

The network is modelled explicitly: a Graph client is a function from a
request to a result, and every adapter operation returns, besides its
`Except` result, the ordered list of requests it issued (its trace) and
the list of diagnostic log entries it wrote, so that sequencing and
error-envelope claims become provable statements.
-/

/-- Canonical meeting-invitation response status
(`ResponseStatus` of the canonical model; `"unknown"` is the sentinel
meaning "no action requested"). -/
inductive ResponseStatus where
  | accepted
  | declined
  | tentative
  | unknown
deriving DecidableEq, Repr

/-- Native Microsoft Graph calendar shape: the fields the adapter selects
(`$select=id,name,isDefaultCalendar,canEdit,hexColor,...`). Optional
fields are `Option`s, as in the Graph wire format. -/
structure MicrosoftCalendar where
  id : String
  name : String
  isDefaultCalendar : Option Bool
  canEdit : Option Bool
  hexColor : Option String
deriving DecidableEq, Repr

/-- Native Microsoft Graph event shape, restricted to the fields the
canonical mapping reads. -/
structure MicrosoftEvent where
  id : String
  subject : Option String
deriving DecidableEq, Repr

/-- Modelled from the spec: canonical `Calendar` of
`providers/interfaces.ts` (not in the analysed tree). Data model §3:
{id, accountId, providerId, name, color, isDefault, isReadOnly}. -/
structure Calendar where
  id : String
  accountId : String
  providerId : String
  name : String
  color : String
  isDefault : Bool
  isReadOnly : Bool
deriving DecidableEq, Repr

/-- Modelled from the spec: canonical `CalendarEvent` of
`providers/interfaces.ts` (not in the analysed tree), restricted to the
identity fields the analysed claims mention. -/
structure CalendarEvent where
  id : String
  calendarId : String
  accountId : String
  providerId : String
  title : String
deriving DecidableEq, Repr

/-- Modelled from the spec: the response part of the canonical input
shapes (`UpdateEventInput.response` and `ResponseToEventInput` of the
schemas/interfaces modules, not in the analysed tree): a response
status plus an optional comment and an optional send-update flag. -/
structure EventResponseInput where
  status : ResponseStatus
  comment : Option String
  sendUpdate : Option Bool
deriving DecidableEq, Repr

/-- Modelled from the spec: canonical `UpdateEventInput`
(`schemas/events.ts`, not in the analysed tree), restricted to the title
and the optional response-status part that `updateEvent` inspects. -/
structure UpdateEventInput where
  title : Option String
  response : Option EventResponseInput
deriving DecidableEq, Repr

/-- Modelled from the spec: canonical `CreateEventInput`
(`schemas/events.ts`, not in the analysed tree), restricted to a title. -/
structure CreateEventInput where
  title : String
deriving DecidableEq, Repr

/-- Modelled from the spec: canonical `CreateCalendarInput`
(`schemas/calendars.ts`, not in the analysed tree), restricted to a name. -/
structure CreateCalendarInput where
  name : String
deriving DecidableEq, Repr

/-- Modelled from the spec: canonical `UpdateCalendarInput`
(`schemas/calendars.ts`, not in the analysed tree), restricted to a name. -/
structure UpdateCalendarInput where
  name : Option String
deriving DecidableEq, Repr

/-- Modelled from the spec: the fixed, deterministic, cyclic color
palette behind `assignColor` (`providers/colors.ts`, not in the analysed
tree). The spec fixes neither the values nor the length, only that the
palette is fixed and consecutive indices yield distinct colors. -/
def colorPalette : List String :=
  ["#3b82f6", "#ef4444", "#22c55e", "#eab308", "#a855f7", "#ec4899",
   "#14b8a6", "#f97316"]

/-- Modelled from the spec: `assignColor` (`providers/colors.ts`, not in
the analysed tree). Pure function of a zero-based index into the fixed
cyclic palette: same index always yields the same color. -/
def assignColor (idx : Nat) : String :=
  colorPalette.get ⟨idx % colorPalette.length, by
    exact Nat.mod_lt _ (by decide)⟩

/-- Modelled from the spec: `calendarPath`
(`providers/microsoft-calendar/utils.ts`, not in the analysed tree).
Pure builder of the REST path fragment for a given calendar id. -/
def calendarPath (calendarId : String) : String :=
  "/me/calendars/" ++ calendarId

/-- Modelled from the spec: `eventResponseStatusPath`
(`providers/microsoft-calendar/utils.ts`, not in the analysed tree).
Pure builder of the Graph RSVP action path fragment for a canonical
response status (`accept`/`decline`/`tentativelyAccept`). Callers guard
against the `unknown` sentinel, which has no action path. -/
def eventResponseStatusPath : ResponseStatus → String
  | ResponseStatus.accepted => "accept"
  | ResponseStatus.declined => "decline"
  | ResponseStatus.tentative => "tentativelyAccept"
  | ResponseStatus.unknown => ""

/-- Modelled from the spec: `parseMicrosoftCalendar`
(`providers/microsoft-calendar/utils.ts`, not in the analysed tree).
Copies id/name, maps `isDefaultCalendar` to `isDefault`, `canEdit` to
`!isReadOnly`, and `hexColor` to `color`, falling back to an assigned
palette color when the native color is absent or empty (the spec does
not say which palette index the mapper itself falls back to; index 0 is
used here). -/
def parseMicrosoftCalendar (calendar : MicrosoftCalendar)
    (accountId : String) : Calendar :=
  { id := calendar.id
  , accountId := accountId
  , providerId := "microsoft"
  , name := calendar.name
  , color :=
      match calendar.hexColor with
      | some c => if c = "" then assignColor 0 else c
      | none => assignColor 0
  , isDefault := calendar.isDefaultCalendar.getD false
  , isReadOnly := !(calendar.canEdit.getD false) }

/-- Modelled from the spec: `parseMicrosoftEvent`
(`providers/microsoft-calendar/utils.ts`, not in the analysed tree),
restricted to the identity fields of the canonical event: copies the
event id and subject, and stamps the calendar id, the account id passed
by the adapter and the provider id. -/
def parseMicrosoftEvent (event : MicrosoftEvent) (accountId : String)
    (calendar : Calendar) : CalendarEvent :=
  { id := event.id
  , calendarId := calendar.id
  , accountId := accountId
  , providerId := "microsoft"
  , title := event.subject.getD "" }

/-- Modelled from the spec: `toMicrosoftEvent`
(`providers/microsoft-calendar/utils.ts`, not in the analysed tree),
restricted to the title field: maps the canonical title to the Graph
`subject`. -/
def toMicrosoftEvent (event : UpdateEventInput) : MicrosoftEvent :=
  { id := "", subject := event.title }

/-- Modelled from the spec: `toMicrosoftEvent` applied to a create
payload. -/
def toMicrosoftEventCreate (event : CreateEventInput) : MicrosoftEvent :=
  { id := "", subject := some event.title }

/-- Modelled from the spec: `CALENDAR_DEFAULTS.MAX_EVENTS_PER_CALENDAR`
(`constants/calendar.ts`, not in the analysed tree): the fixed maximum
event count requested per calendar; the numeric value is not given by
the spec, 250 is used here. -/
def MAX_EVENTS_PER_CALENDAR : Nat := 250

/-- A point on the timeline together with a timezone, modelling
`Temporal.ZonedDateTime` (external library): an exact instant (epoch
seconds) plus the timezone it is viewed in. -/
structure ZonedDateTime where
  epochSeconds : Int
  timeZone : String
deriving DecidableEq, Repr

/-- Models `Temporal.ZonedDateTime.withTimeZone`: same instant, new
timezone. -/
def ZonedDateTime.withTimeZone (z : ZonedDateTime) (tz : String) :
    ZonedDateTime :=
  { epochSeconds := z.epochSeconds, timeZone := tz }

/-- An exact point on the timeline, modelling `Temporal.Instant`. -/
structure Instant where
  epochSeconds : Int
deriving DecidableEq, Repr

/-- Models `Temporal.ZonedDateTime.toInstant`: forget the timezone. -/
def ZonedDateTime.toInstant (z : ZonedDateTime) : Instant :=
  { epochSeconds := z.epochSeconds }

/-- Two-digit zero-padded decimal, for ISO-8601 rendering. -/
def pad2 (n : Nat) : String :=
  if n < 10 then "0" ++ toString n else toString n

/-- Four-digit zero-padded decimal, for ISO-8601 rendering. -/
def pad4 (n : Nat) : String :=
  if n < 10 then "000" ++ toString n
  else if n < 100 then "00" ++ toString n
  else if n < 1000 then "0" ++ toString n
  else toString n

/-- Gregorian date from days since the Unix epoch
(proleptic Gregorian civil-from-days algorithm). -/
def civilFromDays (z0 : Int) : Int × Nat × Nat :=
  let z := z0 + 719468
  let era := Int.fdiv z 146097
  let doe := (z - era * 146097).toNat
  let yoe := (doe - doe / 1460 + doe / 36524 - doe / 146096) / 365
  let doy := doe - (365 * yoe + yoe / 4 - yoe / 100)
  let mp := (5 * doy + 2) / 153
  let d := doy - (153 * mp + 2) / 5 + 1
  let m := if mp < 10 then mp + 3 else mp - 9
  let y : Int := (yoe : Int) + era * 400 + (if m ≤ 2 then 1 else 0)
  (y, m, d)

/-- Models `Temporal.Instant.toString`: ISO-8601 UTC rendering of an instant,
e.g. `1970-01-01T00:00:00Z`. -/
def Instant.toISO (i : Instant) : String :=
  let days := Int.fdiv i.epochSeconds 86400
  let secs := (i.epochSeconds - days * 86400).toNat
  let ymd := civilFromDays days
  pad4 ymd.1.toNat ++ "-" ++ pad2 ymd.2.1 ++ "-" ++ pad2 ymd.2.2 ++ "T" ++
    pad2 (secs / 3600) ++ ":" ++ pad2 (secs % 3600 / 60) ++ ":" ++
    pad2 (secs % 60) ++ "Z"

/-- HTTP verb of a Graph request. -/
inductive HttpMethod where
  | get
  | post
  | patch
  | delete
deriving DecidableEq, Repr

/-- Body of a Graph request, covering the payload shapes the adapter
sends. -/
inductive RequestBody where
  | event (e : MicrosoftEvent)
  | rsvp (comment : Option String) (sendResponse : Option Bool)
  | calendarCreate (c : CreateCalendarInput)
  | calendarUpdate (c : UpdateCalendarInput)
deriving DecidableEq, Repr

/-- A Graph request as assembled by the adapter through the client
builder: verb, path, headers, OData query options and body. -/
structure Request where
  method : HttpMethod
  path : String
  headers : List (String × String)
  filter : Option String
  orderby : Option String
  top : Option Nat
  body : Option RequestBody
deriving DecidableEq, Repr

/-- A well-typed successful Graph response. -/
inductive GraphResponse where
  | calendarList (value : List MicrosoftCalendar)
  | calendarItem (c : MicrosoftCalendar)
  | eventList (value : List MicrosoftEvent)
  | eventItem (e : MicrosoftEvent)
  | empty
deriving DecidableEq, Repr

/-- An underlying client failure (the raw error caught by the adapter). -/
structure GraphError where
  message : String
deriving DecidableEq, Repr

/-- The TypeScript source casts responses (`response.value as
MicrosoftCalendar[]`) without a runtime check; the embedding mirrors
that with a defaulting projection. -/
def GraphResponse.asCalendarList : GraphResponse → List MicrosoftCalendar
  | GraphResponse.calendarList v => v
  | _ => []

/-- Defaulting projection mirroring the unchecked cast to a single
native calendar. -/
def GraphResponse.asCalendarItem : GraphResponse → MicrosoftCalendar
  | GraphResponse.calendarItem c => c
  | _ => { id := "", name := "", isDefaultCalendar := none,
           canEdit := none, hexColor := none }

/-- Defaulting projection mirroring the unchecked cast to a native event
list. -/
def GraphResponse.asEventList : GraphResponse → List MicrosoftEvent
  | GraphResponse.eventList v => v
  | _ => []

/-- Defaulting projection mirroring the unchecked cast to a single
native event. -/
def GraphResponse.asEventItem : GraphResponse → MicrosoftEvent
  | GraphResponse.eventItem e => e
  | _ => { id := "", subject := none }

/-- The authenticated Graph network client, abstracted as a function
from a request to a result (the client and its token are captured at
adapter construction and never change). -/
def GraphClient : Type :=
  Request → Except GraphError GraphResponse

/-- Modelled from the spec: `ProviderError` (`providers/utils.ts`, not in the analysed tree;
spec §3): wraps the underlying error, the operation name and an
optional context map; constructed only at the adapter boundary. -/
structure ProviderError where
  error : GraphError
  operation : String
  context : Option (List (String × String))
deriving DecidableEq, Repr

/-- A `console.error` diagnostic record written by the error handler:
the operation name and the raw error. -/
structure LogEntry where
  operation : String
  error : GraphError
deriving DecidableEq, Repr

/-- Observable outcome of one adapter operation: the ordered list of
network requests it issued, the diagnostic log it wrote, and its result
(canonical value or `ProviderError`). -/
structure OpResult (α : Type) where
  trace : List Request
  log : List LogEntry
  result : Except ProviderError α
deriving Repr

/-- The Microsoft adapter: constructed with an account id and the
already-authenticated Graph client (`accessToken` is captured inside the
client); both are immutable for the adapter's lifetime. -/
structure MicrosoftCalendarProvider where
  accountId : String
  graphClient : GraphClient

/-- The `providerId` instance field of the adapter: always `"microsoft"`. -/
def MicrosoftCalendarProvider.providerId : String := "microsoft"

/-- Embeds `withErrorHandler`: the uniform error envelope around every adapter
operation. On success it returns the inner result unchanged; on failure
it logs the operation name and raw error and wraps the error once in a
`ProviderError` carrying the operation name, the original error and the
optional context map — no retry, no suppression. The inner computation
is represented by its issued trace and its raw outcome. -/
def withErrorHandler {α : Type} (operation : String)
    (run : List Request × Except GraphError α)
    (context : Option (List (String × String))) : OpResult α :=
  match run with
  | (tr, Except.ok v) =>
      { trace := tr, log := [], result := Except.ok v }
  | (tr, Except.error e) =>
      { trace := tr
      , log := [{ operation := operation, error := e }]
      , result := Except.error
          { error := e, operation := operation, context := context } }

/-- The field-selection listing request issued by `calendars()` (the
`$select` query is required by the provider). -/
def calendarsRequest : Request :=
  { method := HttpMethod.get
  , path := "/me/calendars?$select=id,name,isDefaultCalendar,canEdit,hexColor,isRemovable,owner,calendarPermissions"
  , headers := [], filter := none, orderby := none, top := none
  , body := none }

/-- Embeds `calendars()`: lists the calendars of the authenticated user and
maps each native calendar through the mapper, then sets its color to the
index-assigned palette color for its position in listing order. -/
def MicrosoftCalendarProvider.calendars
    (p : MicrosoftCalendarProvider) : OpResult (List Calendar) :=
  withErrorHandler "calendars"
    (match p.graphClient calendarsRequest with
     | Except.error e => ([calendarsRequest], Except.error e)
     | Except.ok resp =>
         ([calendarsRequest],
          Except.ok (resp.asCalendarList.mapIdx (fun idx c =>
            { parseMicrosoftCalendar c p.accountId with
                color := assignColor idx }))))
    none

/-- The creation request issued by `createCalendar`. -/
def createCalendarRequest (calendarData : CreateCalendarInput) : Request :=
  { method := HttpMethod.post, path := "/me/calendars"
  , headers := [], filter := none, orderby := none, top := none
  , body := some (RequestBody.calendarCreate calendarData) }

/-- Embeds `createCalendar(input)`: direct passthrough POST returning the
mapped canonical calendar. -/
def MicrosoftCalendarProvider.createCalendar
    (p : MicrosoftCalendarProvider)
    (calendarData : CreateCalendarInput) : OpResult Calendar :=
  withErrorHandler "createCalendar"
    (match p.graphClient (createCalendarRequest calendarData) with
     | Except.error e => ([createCalendarRequest calendarData], Except.error e)
     | Except.ok resp =>
         ([createCalendarRequest calendarData],
          Except.ok (parseMicrosoftCalendar resp.asCalendarItem p.accountId)))
    none

/-- The update request issued by `updateCalendar`. -/
def updateCalendarRequest (calendarId : String)
    (calendar : UpdateCalendarInput) : Request :=
  { method := HttpMethod.patch, path := calendarPath calendarId
  , headers := [], filter := none, orderby := none, top := none
  , body := some (RequestBody.calendarUpdate calendar) }

/-- Embeds `updateCalendar(calendarId, calendar)`: direct passthrough PATCH
returning the mapped canonical calendar. -/
def MicrosoftCalendarProvider.updateCalendar
    (p : MicrosoftCalendarProvider) (calendarId : String)
    (calendar : UpdateCalendarInput) : OpResult Calendar :=
  withErrorHandler "updateCalendar"
    (match p.graphClient (updateCalendarRequest calendarId calendar) with
     | Except.error e =>
         ([updateCalendarRequest calendarId calendar], Except.error e)
     | Except.ok resp =>
         ([updateCalendarRequest calendarId calendar],
          Except.ok (parseMicrosoftCalendar resp.asCalendarItem p.accountId)))
    none

/-- The deletion request issued by `deleteCalendar`. -/
def deleteCalendarRequest (calendarId : String) : Request :=
  { method := HttpMethod.delete, path := calendarPath calendarId
  , headers := [], filter := none, orderby := none, top := none
  , body := none }

/-- Embeds `deleteCalendar(calendarId)`: direct passthrough DELETE, no
value. -/
def MicrosoftCalendarProvider.deleteCalendar
    (p : MicrosoftCalendarProvider) (calendarId : String) : OpResult Unit :=
  withErrorHandler "deleteCalendar"
    (match p.graphClient (deleteCalendarRequest calendarId) with
     | Except.error e => ([deleteCalendarRequest calendarId], Except.error e)
     | Except.ok _ => ([deleteCalendarRequest calendarId], Except.ok ()))
    none

/-- The listing request issued by `events`: path under the calendar,
`Prefer: outlook.timezone` header, OData filter on the UTC instant
strings of the bounds, ascending order by start, and the fixed top cap. -/
def eventsRequest (calendarId : String) (timeMin timeMax : ZonedDateTime)
    (timeZone : String) : Request :=
  { method := HttpMethod.get
  , path := calendarPath calendarId ++ "/events"
  , headers := [("Prefer", "outlook.timezone=\"" ++ timeZone ++ "\"")]
  , filter := some ("start/dateTime ge '" ++
      ((timeMin.withTimeZone "UTC").toInstant).toISO ++
      "' and end/dateTime le '" ++
      ((timeMax.withTimeZone "UTC").toInstant).toISO ++ "'")
  , orderby := some "start/dateTime"
  , top := some MAX_EVENTS_PER_CALENDAR
  , body := none }

/-- Embeds `events(calendar, timeMin, timeMax, timeZone)`: issues the filtered,
ordered, capped listing request and maps each native event through the
mapper with the adapter's account id and the canonical calendar. -/
def MicrosoftCalendarProvider.events (p : MicrosoftCalendarProvider)
    (calendar : Calendar) (timeMin timeMax : ZonedDateTime)
    (timeZone : String) : OpResult (List CalendarEvent) :=
  withErrorHandler "events"
    (match p.graphClient (eventsRequest calendar.id timeMin timeMax timeZone) with
     | Except.error e =>
         ([eventsRequest calendar.id timeMin timeMax timeZone], Except.error e)
     | Except.ok resp =>
         ([eventsRequest calendar.id timeMin timeMax timeZone],
          Except.ok (resp.asEventList.map (fun event =>
            parseMicrosoftEvent event p.accountId calendar))))
    none

/-- The creation request issued by `createEvent`. -/
def createEventRequest (calendarId : String)
    (event : CreateEventInput) : Request :=
  { method := HttpMethod.post
  , path := calendarPath calendarId ++ "/events"
  , headers := [], filter := none, orderby := none, top := none
  , body := some (RequestBody.event (toMicrosoftEventCreate event)) }

/-- Embeds `createEvent(calendar, event)`: maps the canonical input to the
native shape, POSTs it, and maps the created native event back. -/
def MicrosoftCalendarProvider.createEvent (p : MicrosoftCalendarProvider)
    (calendar : Calendar) (event : CreateEventInput) :
    OpResult CalendarEvent :=
  withErrorHandler "createEvent"
    (match p.graphClient (createEventRequest calendar.id event) with
     | Except.error e => ([createEventRequest calendar.id event], Except.error e)
     | Except.ok resp =>
         ([createEventRequest calendar.id event],
          Except.ok (parseMicrosoftEvent resp.asEventItem p.accountId calendar)))
    none

/-- The primary PATCH request issued by `updateEvent`. -/
def updateEventPatchRequest (calendarId eventId : String)
    (event : UpdateEventInput) : Request :=
  { method := HttpMethod.patch
  , path := calendarPath calendarId ++ "/events/" ++ eventId
  , headers := [], filter := none, orderby := none, top := none
  , body := some (RequestBody.event (toMicrosoftEvent event)) }

/-- The RSVP-action POST request: the path is derived from the response
status through `eventResponseStatusPath`, the body carries the comment
and the send-update flag. -/
def rsvpRequest (eventId : String) (r : EventResponseInput) : Request :=
  { method := HttpMethod.post
  , path := "/me/events/" ++ eventId ++ "/" ++
      eventResponseStatusPath r.status
  , headers := [], filter := none, orderby := none, top := none
  , body := some (RequestBody.rsvp r.comment r.sendUpdate) }

/-- The body of `updateEvent` inside its error envelope: first the
primary PATCH; if it fails the error propagates with no further call;
if it succeeds and the input carries a populated, non-`unknown` response
status, the RSVP-action POST follows sequentially; the returned event is
parsed from the PATCH response alone. -/
def updateEventRun (p : MicrosoftCalendarProvider) (calendar : Calendar)
    (eventId : String) (event : UpdateEventInput) :
    List Request × Except GraphError CalendarEvent :=
  match p.graphClient (updateEventPatchRequest calendar.id eventId event) with
  | Except.error e =>
      ([updateEventPatchRequest calendar.id eventId event], Except.error e)
  | Except.ok resp =>
      match event.response with
      | none =>
          ([updateEventPatchRequest calendar.id eventId event],
           Except.ok (parseMicrosoftEvent resp.asEventItem p.accountId calendar))
      | some r =>
          if r.status = ResponseStatus.unknown then
            ([updateEventPatchRequest calendar.id eventId event],
             Except.ok (parseMicrosoftEvent resp.asEventItem p.accountId calendar))
          else
            match p.graphClient (rsvpRequest eventId r) with
            | Except.error e =>
                ([updateEventPatchRequest calendar.id eventId event,
                  rsvpRequest eventId r], Except.error e)
            | Except.ok _ =>
                ([updateEventPatchRequest calendar.id eventId event,
                  rsvpRequest eventId r],
                 Except.ok (parseMicrosoftEvent resp.asEventItem p.accountId
                   calendar))

/-- Embeds `updateEvent(calendar, eventId, event)`: PATCH then optional
sequential RSVP POST, inside the uniform error envelope. -/
def MicrosoftCalendarProvider.updateEvent (p : MicrosoftCalendarProvider)
    (calendar : Calendar) (eventId : String) (event : UpdateEventInput) :
    OpResult CalendarEvent :=
  withErrorHandler "updateEvent" (updateEventRun p calendar eventId event) none

/-- The deletion request issued by `deleteEvent`. -/
def deleteEventRequest (calendarId eventId : String) : Request :=
  { method := HttpMethod.delete
  , path := calendarPath calendarId ++ "/events/" ++ eventId
  , headers := [], filter := none, orderby := none, top := none
  , body := none }

/-- Embeds `deleteEvent(calendarId, eventId)`: direct passthrough DELETE. -/
def MicrosoftCalendarProvider.deleteEvent (p : MicrosoftCalendarProvider)
    (calendarId eventId : String) : OpResult Unit :=
  withErrorHandler "deleteEvent"
    (match p.graphClient (deleteEventRequest calendarId eventId) with
     | Except.error e => ([deleteEventRequest calendarId eventId], Except.error e)
     | Except.ok _ => ([deleteEventRequest calendarId eventId], Except.ok ()))
    none

/-- The body of `responseToEvent` inside its error envelope: an early
return with no network call when the status is the `unknown` sentinel,
otherwise the single RSVP-action POST. -/
def responseToEventRun (p : MicrosoftCalendarProvider) (eventId : String)
    (response : EventResponseInput) :
    List Request × Except GraphError Unit :=
  if response.status = ResponseStatus.unknown then
    ([], Except.ok ())
  else
    match p.graphClient (rsvpRequest eventId response) with
    | Except.error e => ([rsvpRequest eventId response], Except.error e)
    | Except.ok _ => ([rsvpRequest eventId response], Except.ok ())

/-- Embeds `responseToEvent(calendarId, eventId, response)`: no-op on the
`unknown` sentinel, otherwise the direct RSVP-action call, inside the
uniform error envelope (the calendar id is not used in the path). -/
def MicrosoftCalendarProvider.responseToEvent
    (p : MicrosoftCalendarProvider) (calendarId eventId : String)
    (response : EventResponseInput) : OpResult Unit :=
  withErrorHandler "responseToEvent" (responseToEventRun p eventId response) none

/-! ### Observation helpers and concrete fixtures -/

/-- Operation name carried by a failing result, if the result failed. -/
def errOperation {α : Type} : Except ProviderError α → Option String
  | Except.error pe => some pe.operation
  | Except.ok _ => none

/-- Context map carried by a failing result, if the result failed. -/
def errContext {α : Type} :
    Except ProviderError α → Option (Option (List (String × String)))
  | Except.error pe => some pe.context
  | Except.ok _ => none

/-- Account ids of the calendars of a successful list result. -/
def calendarListAccountIds :
    Except ProviderError (List Calendar) → List String
  | Except.ok cs => cs.map Calendar.accountId
  | Except.error _ => []

/-- Account id of a successful single-calendar result. -/
def okCalendarAccountId : Except ProviderError Calendar → Option String
  | Except.ok c => some c.accountId
  | Except.error _ => none

/-- Account ids of the events of a successful list result. -/
def eventListAccountIds :
    Except ProviderError (List CalendarEvent) → List String
  | Except.ok es => es.map CalendarEvent.accountId
  | Except.error _ => []

/-- Account id of a successful single-event result. -/
def okEventAccountId : Except ProviderError CalendarEvent → Option String
  | Except.ok e => some e.accountId
  | Except.error _ => none

/-- Envelope behaviour of `withErrorHandler` alone, shared by the
per-operation results below: the failing result carries the operation
name that was passed in, or no error at all. -/
theorem withErrorHandler_errOperation {α : Type} (operation : String)
    (run : List Request × Except GraphError α)
    (ctx : Option (List (String × String))) :
    errOperation (withErrorHandler operation run ctx).result = none ∨
      errOperation (withErrorHandler operation run ctx).result =
        some operation := by
  obtain ⟨tr, r⟩ := run
  cases r <;> simp [withErrorHandler, errOperation]

/-- Envelope behaviour of `withErrorHandler` alone: the failing result
carries exactly the context map that was passed in, or no error at all. -/
theorem withErrorHandler_errContext {α : Type} (operation : String)
    (run : List Request × Except GraphError α)
    (ctx : Option (List (String × String))) :
    errContext (withErrorHandler operation run ctx).result = none ∨
      errContext (withErrorHandler operation run ctx).result = some ctx := by
  obtain ⟨tr, r⟩ := run
  cases r <;> simp [withErrorHandler, errContext]

/-! ### Claim theorems -/

/-- C3: the uniform error envelope: on success `withErrorHandler`
returns the inner result unchanged and logs nothing; on failure it logs
the operation name with the raw error once and surfaces exactly one
`ProviderError` carrying the operation name, the original error and the
given context — never a retry (the trace is the inner trace, unchanged),
never a suppression or a default value. Moreover every public adapter
operation is wrapped with its own name: a failing result of any
operation carries that operation's name. -/
theorem withErrorHandler_envelope {α : Type} (operation : String)
    (tr : List Request) (ctx : Option (List (String × String)))
    (p : MicrosoftCalendarProvider) (cal : Calendar)
    (cci : CreateCalendarInput) (uci : UpdateCalendarInput)
    (cei : CreateEventInput) (uei : UpdateEventInput)
    (eri : EventResponseInput) (cid eid tz : String)
    (tmin tmax : ZonedDateTime) :
    (∀ v : α, withErrorHandler operation (tr, Except.ok v) ctx =
        { trace := tr, log := [], result := Except.ok v }) ∧
    (∀ e : GraphError,
        withErrorHandler operation
          (tr, (Except.error e : Except GraphError α)) ctx =
        { trace := tr
        , log := [{ operation := operation, error := e }]
        , result := Except.error
            { error := e, operation := operation, context := ctx } }) ∧
    (errOperation p.calendars.result = none ∨
      errOperation p.calendars.result = some "calendars") ∧
    (errOperation (p.createCalendar cci).result = none ∨
      errOperation (p.createCalendar cci).result = some "createCalendar") ∧
    (errOperation (p.updateCalendar cid uci).result = none ∨
      errOperation (p.updateCalendar cid uci).result = some "updateCalendar") ∧
    (errOperation (p.deleteCalendar cid).result = none ∨
      errOperation (p.deleteCalendar cid).result = some "deleteCalendar") ∧
    (errOperation (p.events cal tmin tmax tz).result = none ∨
      errOperation (p.events cal tmin tmax tz).result = some "events") ∧
    (errOperation (p.createEvent cal cei).result = none ∨
      errOperation (p.createEvent cal cei).result = some "createEvent") ∧
    (errOperation (p.updateEvent cal eid uei).result = none ∨
      errOperation (p.updateEvent cal eid uei).result = some "updateEvent") ∧
    (errOperation (p.deleteEvent cid eid).result = none ∨
      errOperation (p.deleteEvent cid eid).result = some "deleteEvent") ∧
    (errOperation (p.responseToEvent cid eid eri).result = none ∨
      errOperation (p.responseToEvent cid eid eri).result =
        some "responseToEvent") :=
  ⟨fun _ => rfl, fun _ => rfl,
   withErrorHandler_errOperation _ _ _, withErrorHandler_errOperation _ _ _,
   withErrorHandler_errOperation _ _ _, withErrorHandler_errOperation _ _ _,
   withErrorHandler_errOperation _ _ _, withErrorHandler_errOperation _ _ _,
   withErrorHandler_errOperation _ _ _, withErrorHandler_errOperation _ _ _,
   withErrorHandler_errOperation _ _ _⟩

/-- C5: the single request issued by `events(calendar, timeMin, timeMax,
timeZone)` converts both bounds to UTC instants (the conversion
preserves the instant and retargets the timezone to UTC), filters to
start ≥ timeMin and end ≤ timeMax over those UTC instant strings, asks
for interpretation in `timeZone` via the `Prefer` header, orders
ascending by start time, and caps the count at the fixed maximum. -/
theorem events_query_shape (p : MicrosoftCalendarProvider) (cal : Calendar)
    (tmin tmax : ZonedDateTime) (tz : String) :
    (p.events cal tmin tmax tz).trace = [eventsRequest cal.id tmin tmax tz] ∧
    (eventsRequest cal.id tmin tmax tz).filter =
      some ("start/dateTime ge '" ++
        ((tmin.withTimeZone "UTC").toInstant).toISO ++
        "' and end/dateTime le '" ++
        ((tmax.withTimeZone "UTC").toInstant).toISO ++ "'") ∧
    (tmin.withTimeZone "UTC").toInstant = tmin.toInstant ∧
    (tmax.withTimeZone "UTC").toInstant = tmax.toInstant ∧
    (tmin.withTimeZone "UTC").timeZone = "UTC" ∧
    (tmax.withTimeZone "UTC").timeZone = "UTC" ∧
    (eventsRequest cal.id tmin tmax tz).headers =
      [("Prefer", "outlook.timezone=\"" ++ tz ++ "\"")] ∧
    (eventsRequest cal.id tmin tmax tz).orderby = some "start/dateTime" ∧
    (eventsRequest cal.id tmin tmax tz).top = some MAX_EVENTS_PER_CALENDAR ∧
    (eventsRequest cal.id tmin tmax tz).method = HttpMethod.get := by
  refine ⟨?_, rfl, rfl, rfl, rfl, rfl, rfl, rfl, rfl, rfl⟩
  unfold MicrosoftCalendarProvider.events
  cases h : p.graphClient (eventsRequest cal.id tmin tmax tz) <;>
    simp [withErrorHandler]

/-- C6: `responseToEvent` with the `unknown` sentinel status performs
zero network calls, logs nothing, and resolves successfully. -/
theorem responseToEvent_unknown_noop (p : MicrosoftCalendarProvider)
    (calendarId eventId : String) (response : EventResponseInput)
    (h : response.status = ResponseStatus.unknown) :
    (p.responseToEvent calendarId eventId response).trace = [] ∧
    (p.responseToEvent calendarId eventId response).log = [] ∧
    (p.responseToEvent calendarId eventId response).result =
      Except.ok () := by
  unfold MicrosoftCalendarProvider.responseToEvent responseToEventRun
  simp [h, withErrorHandler]

/-- C6 witness at a concrete input. -/
theorem responseToEvent_unknown_noop_witness :
    (MicrosoftCalendarProvider.responseToEvent
      { accountId := "acct1", graphClient := fun _ => Except.ok GraphResponse.empty }
      "cal1" "evt1"
      { status := ResponseStatus.unknown, comment := none, sendUpdate := none }).trace = [] ∧
    (MicrosoftCalendarProvider.responseToEvent
      { accountId := "acct1", graphClient := fun _ => Except.ok GraphResponse.empty }
      "cal1" "evt1"
      { status := ResponseStatus.unknown, comment := none, sendUpdate := none }).log = [] ∧
    (MicrosoftCalendarProvider.responseToEvent
      { accountId := "acct1", graphClient := fun _ => Except.ok GraphResponse.empty }
      "cal1" "evt1"
      { status := ResponseStatus.unknown, comment := none, sendUpdate := none }).result =
      Except.ok () :=
  responseToEvent_unknown_noop _ "cal1" "evt1" _ rfl

/-- C7: `responseToEvent` with status accepted, declined or tentative
issues exactly one network call: a POST to the RSVP-action path derived
deterministically from the status (any input with the same status yields
the same path). -/
theorem responseToEvent_single_rsvp_call (p : MicrosoftCalendarProvider)
    (calendarId eventId : String) (response : EventResponseInput)
    (h : response.status = ResponseStatus.accepted ∨
      response.status = ResponseStatus.declined ∨
      response.status = ResponseStatus.tentative) :
    (p.responseToEvent calendarId eventId response).trace =
      [rsvpRequest eventId response] ∧
    (rsvpRequest eventId response).method = HttpMethod.post ∧
    (rsvpRequest eventId response).path =
      "/me/events/" ++ eventId ++ "/" ++
        eventResponseStatusPath response.status ∧
    (∀ response2 : EventResponseInput, response2.status = response.status →
      (rsvpRequest eventId response2).path =
        (rsvpRequest eventId response).path) := by
  have hs : ¬ response.status = ResponseStatus.unknown := by
    rcases h with h | h | h <;> simp [h]
  refine ⟨?_, rfl, rfl, ?_⟩
  · unfold MicrosoftCalendarProvider.responseToEvent responseToEventRun
    cases hc : p.graphClient (rsvpRequest eventId response) <;>
      simp [hs, hc, withErrorHandler]
  · intro response2 h2
    simp [rsvpRequest, h2]

/-- C7 witness at a concrete input. -/
theorem responseToEvent_single_rsvp_call_witness :
    (MicrosoftCalendarProvider.responseToEvent
      { accountId := "acct1", graphClient := fun _ => Except.ok GraphResponse.empty }
      "cal1" "evt1"
      { status := ResponseStatus.accepted, comment := none, sendUpdate := some true }).trace =
      [rsvpRequest "evt1"
        { status := ResponseStatus.accepted, comment := none, sendUpdate := some true }] ∧
    (rsvpRequest "evt1"
      { status := ResponseStatus.accepted, comment := none, sendUpdate := some true }).method =
      HttpMethod.post ∧
    (rsvpRequest "evt1"
      { status := ResponseStatus.accepted, comment := none, sendUpdate := some true }).path =
      "/me/events/" ++ "evt1" ++ "/" ++
        eventResponseStatusPath ResponseStatus.accepted ∧
    (∀ response2 : EventResponseInput, response2.status = ResponseStatus.accepted →
      (rsvpRequest "evt1" response2).path =
        (rsvpRequest "evt1"
          { status := ResponseStatus.accepted, comment := none,
            sendUpdate := some true }).path) :=
  responseToEvent_single_rsvp_call _ "cal1" "evt1" _ (Or.inl rfl)

/-- Fixture: a canonical calendar used as concrete input. -/
def calFixture : Calendar :=
  { id := "cal1", accountId := "acct1", providerId := "microsoft"
  , name := "Main", color := "#3b82f6", isDefault := true
  , isReadOnly := false }

/-- Fixture: an update payload asking for an accepted RSVP. -/
def updateFixture : UpdateEventInput :=
  { title := some "new title"
  , response := some { status := ResponseStatus.accepted, comment := none
                     , sendUpdate := some true } }

/-- Fixture: a client whose PATCH succeeds and whose RSVP POST fails. -/
def clientRsvpFails : GraphClient := fun req =>
  match req.method with
  | HttpMethod.patch =>
      Except.ok (GraphResponse.eventItem { id := "evt1", subject := some "t" })
  | _ => Except.error { message := "rsvp failed" }

/-- Fixture: a client that answers every request successfully. -/
def clientAllOk : GraphClient := fun req =>
  match req.method with
  | HttpMethod.patch =>
      Except.ok (GraphResponse.eventItem { id := "evt1", subject := some "t" })
  | _ => Except.ok GraphResponse.empty

/-- C2: the requests issued by `updateEvent`, in order: always the
primary PATCH first, and the RSVP-action POST exactly when the PATCH
resolved successfully and the input carries a populated response whose
status is not the `unknown` sentinel — so the POST is issued if and
only if that condition holds, it always comes strictly after the PATCH,
and a failing PATCH means no POST at all. -/
theorem updateEvent_rsvp_sequencing (p : MicrosoftCalendarProvider)
    (cal : Calendar) (eventId : String) (event : UpdateEventInput) :
    (p.updateEvent cal eventId event).trace =
      updateEventPatchRequest cal.id eventId event ::
        (match p.graphClient (updateEventPatchRequest cal.id eventId event),
               event.response with
         | Except.ok _, some r =>
             if r.status = ResponseStatus.unknown then []
             else [rsvpRequest eventId r]
         | _, _ => []) := by
  unfold MicrosoftCalendarProvider.updateEvent updateEventRun
  cases hc : p.graphClient (updateEventPatchRequest cal.id eventId event) with
  | error e => simp [withErrorHandler, hc]
  | ok resp =>
    cases hr : event.response with
    | none => simp [withErrorHandler, hc, hr]
    | some r =>
      by_cases hs : r.status = ResponseStatus.unknown
      · simp [withErrorHandler, hc, hr, hs]
      · cases hp : p.graphClient (rsvpRequest eventId r) <;>
          simp [withErrorHandler, hc, hr, hs, hp]

/-- C4: when the primary PATCH of `updateEvent` succeeds but the
follow-up RSVP POST fails, exactly the two calls were issued (no
compensating call rolls the primary update back) and the RSVP failure
surfaces to the caller as the one `ProviderError` of the operation. -/
theorem updateEvent_rsvp_failure_surfaces (p : MicrosoftCalendarProvider)
    (cal : Calendar) (eventId : String) (event : UpdateEventInput)
    (r : EventResponseInput) (resp : GraphResponse) (e : GraphError)
    (hr : event.response = some r)
    (hs : ¬ r.status = ResponseStatus.unknown)
    (hpatch : p.graphClient (updateEventPatchRequest cal.id eventId event) =
      Except.ok resp)
    (hpost : p.graphClient (rsvpRequest eventId r) = Except.error e) :
    (p.updateEvent cal eventId event).trace =
      [updateEventPatchRequest cal.id eventId event, rsvpRequest eventId r] ∧
    (p.updateEvent cal eventId event).result =
      Except.error { error := e, operation := "updateEvent"
                   , context := none } := by
  unfold MicrosoftCalendarProvider.updateEvent updateEventRun
  simp [hpatch, hr, hs, hpost, withErrorHandler]

/-- C4 witness at a concrete client whose PATCH succeeds and whose RSVP
POST fails. -/
theorem updateEvent_rsvp_failure_surfaces_witness :
    (MicrosoftCalendarProvider.updateEvent
      { accountId := "acct1", graphClient := clientRsvpFails }
      calFixture "evt1" updateFixture).trace =
      [updateEventPatchRequest calFixture.id "evt1" updateFixture,
       rsvpRequest "evt1"
         { status := ResponseStatus.accepted, comment := none
         , sendUpdate := some true }] ∧
    (MicrosoftCalendarProvider.updateEvent
      { accountId := "acct1", graphClient := clientRsvpFails }
      calFixture "evt1" updateFixture).result =
      Except.error { error := { message := "rsvp failed" }
                   , operation := "updateEvent", context := none } :=
  updateEvent_rsvp_failure_surfaces _ calFixture "evt1" updateFixture _
    (GraphResponse.eventItem { id := "evt1", subject := some "t" })
    { message := "rsvp failed" } rfl (by decide) rfl rfl

/-- The inner body of `updateEvent` can only succeed with the event
parsed from the primary PATCH response, whatever the RSVP call returned. -/
theorem updateEventRun_ok (p : MicrosoftCalendarProvider) (cal : Calendar)
    (eventId : String) (event : UpdateEventInput) (ev : CalendarEvent)
    (h : (updateEventRun p cal eventId event).2 = Except.ok ev) :
    ∃ resp, p.graphClient (updateEventPatchRequest cal.id eventId event) =
        Except.ok resp ∧
      ev = parseMicrosoftEvent resp.asEventItem p.accountId cal := by
  unfold updateEventRun at h
  cases hc : p.graphClient (updateEventPatchRequest cal.id eventId event) with
  | error e => rw [hc] at h; simp at h
  | ok resp =>
    rw [hc] at h
    refine ⟨resp, rfl, ?_⟩
    cases hrr : event.response with
    | none => rw [hrr] at h; simp at h; exact h.symm
    | some r =>
      rw [hrr] at h
      by_cases hs : r.status = ResponseStatus.unknown
      · simp [hs] at h; exact h.symm
      · cases hp : p.graphClient (rsvpRequest eventId r) with
        | error e => simp [hs, hp] at h
        | ok x => simp [hs, hp] at h; exact h.symm

/-- The error envelope passes successful inner results through
unchanged. -/
theorem withErrorHandler_result_ok {α : Type} (operation : String)
    (run : List Request × Except GraphError α)
    (ctx : Option (List (String × String))) (v : α) :
    (withErrorHandler operation run ctx).result = Except.ok v ↔
      run.2 = Except.ok v := by
  obtain ⟨tr, r⟩ := run
  cases r <;> simp [withErrorHandler]

/-- C8: whenever `updateEvent` returns a `CalendarEvent`, that event is
parsed solely from the primary PATCH response: it equals the mapper
applied to the PATCH response, so the RSVP POST response never
contributes to the returned value. -/
theorem updateEvent_result_from_patch_only (p : MicrosoftCalendarProvider)
    (cal : Calendar) (eventId : String) (event : UpdateEventInput)
    (ev : CalendarEvent)
    (h : (p.updateEvent cal eventId event).result = Except.ok ev) :
    ∃ resp, p.graphClient (updateEventPatchRequest cal.id eventId event) =
        Except.ok resp ∧
      ev = parseMicrosoftEvent resp.asEventItem p.accountId cal :=
  updateEventRun_ok p cal eventId event ev
    ((withErrorHandler_result_ok "updateEvent"
      (updateEventRun p cal eventId event) none ev).mp h)

/-- C8 witness at a concrete client where both calls succeed. -/
theorem updateEvent_result_from_patch_only_witness :
    ∃ resp, clientAllOk (updateEventPatchRequest calFixture.id "evt1"
        updateFixture) = Except.ok resp ∧
      parseMicrosoftEvent { id := "evt1", subject := some "t" } "acct1"
          calFixture =
        parseMicrosoftEvent resp.asEventItem "acct1" calFixture :=
  updateEvent_result_from_patch_only
    { accountId := "acct1", graphClient := clientAllOk }
    calFixture "evt1" updateFixture
    (parseMicrosoftEvent { id := "evt1", subject := some "t" } "acct1"
      calFixture) rfl

/-- Fixture: a native calendar carrying a non-empty provider color. -/
def nativeColoredCalendar : MicrosoftCalendar :=
  { id := "cal1", name := "Main", isDefaultCalendar := some true
  , canEdit := some true, hexColor := some "#123456" }

/-- Fixture: a client whose listing returns exactly that calendar. -/
def clientOneCalendar : GraphClient := fun _ =>
  Except.ok (GraphResponse.calendarList [nativeColoredCalendar])

/-- Fixture: an adapter over that client. -/
def providerOneCalendar : MicrosoftCalendarProvider :=
  { accountId := "acct1", graphClient := clientOneCalendar }

/-- C1 counterexample: the provider supplies a non-absent, non-empty
native color (`hexColor = "#123456"`, which the mapper alone would
keep), yet the calendar returned by `calendars()` carries the
index-assigned palette color instead — the spread in `calendars()`
overrides the mapped color unconditionally, so the assigned color is
not merely a fallback. -/
theorem calendars_overrides_native_color :
    nativeColoredCalendar.hexColor = some "#123456" ∧
    "#123456" ≠ "" ∧
    (parseMicrosoftCalendar nativeColoredCalendar "acct1").color =
      "#123456" ∧
    providerOneCalendar.calendars.result.map
      (fun cs => cs.map Calendar.color) = Except.ok [assignColor 0] ∧
    assignColor 0 ≠ "#123456" := by
  refine ⟨rfl, by decide, rfl, rfl, by decide⟩

/-- C1 as amended: the color of every calendar returned by
`calendars()` is the palette color assigned to its zero-based position
in listing order, regardless of any native color the provider
supplied (the native-color fallback lives only inside the mapper,
whose color `calendars()` always overrides). -/
theorem calendars_color_always_assigned (p : MicrosoftCalendarProvider)
    (cs : List Calendar) (h : p.calendars.result = Except.ok cs)
    (i : Nat) (hi : i < cs.length) :
    (cs.get ⟨i, hi⟩).color = assignColor i := by
  unfold MicrosoftCalendarProvider.calendars at h
  cases hc : p.graphClient calendarsRequest with
  | error e => rw [hc] at h; simp [withErrorHandler] at h
  | ok resp =>
    rw [hc] at h
    simp [withErrorHandler] at h
    subst h
    have hi2 : i < resp.asCalendarList.length := by
      simpa using hi
    rw [List.get_mapIdx resp.asCalendarList _ i hi2]

/-- C1 amended-claim witness at the concrete one-calendar listing. -/
theorem calendars_color_always_assigned_witness :
    providerOneCalendar.calendars.result =
      Except.ok [{ parseMicrosoftCalendar nativeColoredCalendar "acct1" with
                   color := assignColor 0 }] ∧
    (([{ parseMicrosoftCalendar nativeColoredCalendar "acct1" with
          color := assignColor 0 }] : List Calendar).get
        ⟨0, Nat.zero_lt_one⟩).color = assignColor 0 :=
  ⟨rfl, calendars_color_always_assigned providerOneCalendar _ rfl 0
    Nat.zero_lt_one⟩

/-- C9: every calendar returned by `calendars`, `createCalendar` or
`updateCalendar` and every event returned by `events`, `createEvent` or
`updateEvent` carries the account id the adapter was constructed with
(the adapter's `accountId` is an immutable field read by every mapping
call and never re-derived). -/
theorem accountId_propagation (p : MicrosoftCalendarProvider)
    (cal : Calendar) (cci : CreateCalendarInput) (uci : UpdateCalendarInput)
    (cei : CreateEventInput) (uei : UpdateEventInput)
    (cid eid tz : String) (tmin tmax : ZonedDateTime) :
    (calendarListAccountIds p.calendars.result).all
      (fun a => a == p.accountId) = true ∧
    (okCalendarAccountId (p.createCalendar cci).result = none ∨
      okCalendarAccountId (p.createCalendar cci).result =
        some p.accountId) ∧
    (okCalendarAccountId (p.updateCalendar cid uci).result = none ∨
      okCalendarAccountId (p.updateCalendar cid uci).result =
        some p.accountId) ∧
    (eventListAccountIds (p.events cal tmin tmax tz).result).all
      (fun a => a == p.accountId) = true ∧
    (okEventAccountId (p.createEvent cal cei).result = none ∨
      okEventAccountId (p.createEvent cal cei).result =
        some p.accountId) ∧
    (okEventAccountId (p.updateEvent cal eid uei).result = none ∨
      okEventAccountId (p.updateEvent cal eid uei).result =
        some p.accountId) := by
  refine ⟨?_, ?_, ?_, ?_, ?_, ?_⟩
  · cases hc : p.graphClient calendarsRequest with
    | error e =>
        simp [MicrosoftCalendarProvider.calendars, hc, withErrorHandler,
          calendarListAccountIds]
    | ok resp =>
        simp only [MicrosoftCalendarProvider.calendars, hc, withErrorHandler,
          calendarListAccountIds]
        rw [List.mapIdx_eq_enum_map]
        simp [List.all_eq_true, Function.uncurry, parseMicrosoftCalendar]
        intro a n c _ ha
        exact ha.symm
  · cases hc : p.graphClient (createCalendarRequest cci) with
    | error e =>
        left
        simp [MicrosoftCalendarProvider.createCalendar, hc, withErrorHandler,
          okCalendarAccountId]
    | ok resp =>
        right
        simp [MicrosoftCalendarProvider.createCalendar, hc, withErrorHandler,
          okCalendarAccountId, parseMicrosoftCalendar]
  · cases hc : p.graphClient (updateCalendarRequest cid uci) with
    | error e =>
        left
        simp [MicrosoftCalendarProvider.updateCalendar, hc, withErrorHandler,
          okCalendarAccountId]
    | ok resp =>
        right
        simp [MicrosoftCalendarProvider.updateCalendar, hc, withErrorHandler,
          okCalendarAccountId, parseMicrosoftCalendar]
  · cases hc : p.graphClient (eventsRequest cal.id tmin tmax tz) with
    | error e =>
        simp [MicrosoftCalendarProvider.events, hc, withErrorHandler,
          eventListAccountIds]
    | ok resp =>
        simp [MicrosoftCalendarProvider.events, hc, withErrorHandler,
          eventListAccountIds, List.all_eq_true, parseMicrosoftEvent]
  · cases hc : p.graphClient (createEventRequest cal.id cei) with
    | error e =>
        left
        simp [MicrosoftCalendarProvider.createEvent, hc, withErrorHandler,
          okEventAccountId]
    | ok resp =>
        right
        simp [MicrosoftCalendarProvider.createEvent, hc, withErrorHandler,
          okEventAccountId, parseMicrosoftEvent]
  · cases hres : (p.updateEvent cal eid uei).result with
    | error e => left; simp [okEventAccountId, hres]
    | ok ev =>
        right
        obtain ⟨resp, hresp, hev⟩ :=
          updateEventRun_ok p cal eid uei ev
            ((withErrorHandler_result_ok "updateEvent"
              (updateEventRun p cal eid uei) none ev).mp hres)
        simp [okEventAccountId, hres, hev, parseMicrosoftEvent]

/-- C10: no call site of the error wrapper in the adapter supplies the
optional context argument, so every `ProviderError` any public
operation surfaces carries an absent context map. -/
theorem providerError_context_absent (p : MicrosoftCalendarProvider)
    (cal : Calendar) (cci : CreateCalendarInput) (uci : UpdateCalendarInput)
    (cei : CreateEventInput) (uei : UpdateEventInput)
    (eri : EventResponseInput) (cid eid tz : String)
    (tmin tmax : ZonedDateTime) :
    (errContext p.calendars.result = none ∨
      errContext p.calendars.result = some none) ∧
    (errContext (p.createCalendar cci).result = none ∨
      errContext (p.createCalendar cci).result = some none) ∧
    (errContext (p.updateCalendar cid uci).result = none ∨
      errContext (p.updateCalendar cid uci).result = some none) ∧
    (errContext (p.deleteCalendar cid).result = none ∨
      errContext (p.deleteCalendar cid).result = some none) ∧
    (errContext (p.events cal tmin tmax tz).result = none ∨
      errContext (p.events cal tmin tmax tz).result = some none) ∧
    (errContext (p.createEvent cal cei).result = none ∨
      errContext (p.createEvent cal cei).result = some none) ∧
    (errContext (p.updateEvent cal eid uei).result = none ∨
      errContext (p.updateEvent cal eid uei).result = some none) ∧
    (errContext (p.deleteEvent cid eid).result = none ∨
      errContext (p.deleteEvent cid eid).result = some none) ∧
    (errContext (p.responseToEvent cid eid eri).result = none ∨
      errContext (p.responseToEvent cid eid eri).result = some none) :=
  ⟨withErrorHandler_errContext _ _ _, withErrorHandler_errContext _ _ _,
   withErrorHandler_errContext _ _ _, withErrorHandler_errContext _ _ _,
   withErrorHandler_errContext _ _ _, withErrorHandler_errContext _ _ _,
   withErrorHandler_errContext _ _ _, withErrorHandler_errContext _ _ _,
   withErrorHandler_errContext _ _ _⟩
